import Mathlib

set_option autoImplicit false

/-!
Verification of the response-extraction and fallback protocol of
`src/services/geminiService.ts` (GlareMyAurora).

Strings are modelled as `List Char`.  `JSON.parse` is modelled by an
executable recursive-descent parser `Json.parse` returning `Option Json`
(`none` exactly where the JavaScript function would throw); numbers are
exact rationals.  The two regular expressions of `extractJson` and the
`String.replace`/`String.trim` pipeline of `fetchSpaceWeather` are
modelled by leftmost-match searching functions (`firstIdx`,
`fenceCapture`, `replaceFirstJsonFence`, `trimJS`): a JavaScript
non-global lazy regex of the form `LIT1([\s\S]*?)LIT2` matches at the
first occurrence of the literal `LIT1` that is followed by an occurrence
of `LIT2`, capturing up to the first such occurrence, which is what the
functions below compute.
-/

/-- JSON values as produced by `JSON.parse`. -/
inductive Json where
  | null : Json
  | bool : Bool → Json
  | num : Rat → Json
  | str : List Char → Json
  | arr : List Json → Json
  | obj : List (List Char × Json) → Json

/-- JSON insignificant whitespace. -/
def jsonWs (c : Char) : Bool := c = ' ' || c = '\t' || c = '\n' || c = '\r'

/-- Drop leading JSON whitespace. -/
def skipWs : List Char → List Char
  | [] => []
  | c :: r => if jsonWs c then skipWs r else c :: r

/-- ASCII decimal digit test. -/
def isDigit (c : Char) : Bool := '0' ≤ c && c ≤ '9'

/-- Value of a digit sequence. -/
def digitsToNat (ds : List Char) : Nat :=
  ds.foldl (fun n c => 10 * n + (c.toNat - 48)) 0

/-- Value of a hexadecimal digit. -/
def hexVal (c : Char) : Option Nat :=
  if '0' ≤ c && c ≤ '9' then some (c.toNat - 48)
  else if 'a' ≤ c && c ≤ 'f' then some (c.toNat - 87)
  else if 'A' ≤ c && c ≤ 'F' then some (c.toNat - 55)
  else none

/-- Single-character JSON string escapes. -/
def escChar (c : Char) : Option Char :=
  if c = '"' then some '"'
  else if c = '\\' then some '\\'
  else if c = '/' then some '/'
  else if c = 'b' then some (Char.ofNat 8)
  else if c = 'f' then some (Char.ofNat 12)
  else if c = 'n' then some '\n'
  else if c = 'r' then some '\r'
  else if c = 't' then some '\t'
  else none

/-- Parse the remainder of a JSON string literal (after the opening
quote), returning the decoded characters and the rest of the input.
Unescaped control characters are rejected, as by `JSON.parse`. -/
def parseStringRest : List Char → Option (List Char × List Char)
  | [] => none
  | c :: r =>
    if c = '"' then some ([], r)
    else if c = '\\' then
      match r with
      | [] => none
      | 'u' :: h1 :: h2 :: h3 :: h4 :: r2 =>
        match hexVal h1, hexVal h2, hexVal h3, hexVal h4 with
        | some a, some b, some c3, some d =>
          (parseStringRest r2).map fun p =>
            (Char.ofNat (4096 * a + 256 * b + 16 * c3 + d) :: p.1, p.2)
        | _, _, _, _ => none
      | e :: r2 =>
        match escChar e with
        | some ce => (parseStringRest r2).map fun p => (ce :: p.1, p.2)
        | none => none
    else if c.toNat < 32 then none
    else (parseStringRest r).map fun p => (c :: p.1, p.2)

/-- Exponent digits of a JSON number. -/
def parseExpDigits (q : Rat) (neg : Bool) (s : List Char) : Option (Rat × List Char) :=
  let p := s.span isDigit
  if p.1.isEmpty then none
  else some ((if neg then q / 10 ^ digitsToNat p.1 else q * 10 ^ digitsToNat p.1), p.2)

/-- Optional exponent part of a JSON number. -/
def parseExpPart (q : Rat) (s : List Char) : Option (Rat × List Char) :=
  match s with
  | 'e' :: '+' :: r => parseExpDigits q false r
  | 'e' :: '-' :: r => parseExpDigits q true r
  | 'e' :: r => parseExpDigits q false r
  | 'E' :: '+' :: r => parseExpDigits q false r
  | 'E' :: '-' :: r => parseExpDigits q true r
  | 'E' :: r => parseExpDigits q false r
  | _ => some (q, s)

/-- Optional fraction and exponent of a JSON number. -/
def parseFracExp (intPart : Nat) (s : List Char) : Option (Rat × List Char) :=
  match s with
  | '.' :: r =>
    let p := r.span isDigit
    if p.1.isEmpty then none
    else parseExpPart ((intPart : Rat) + (digitsToNat p.1 : Rat) / 10 ^ p.1.length) p.2
  | _ => parseExpPart (intPart : Rat) s

/-- Unsigned JSON number (leading-zero rule enforced). -/
def parseUnsigned (s : List Char) : Option (Rat × List Char) :=
  let p := s.span isDigit
  if p.1.isEmpty then none
  else if p.1.length > 1 && p.1.headD '0' = '0' then none
  else parseFracExp (digitsToNat p.1) p.2

/-- JSON number with optional sign. -/
def parseNumber (s : List Char) : Option (Json × List Char) :=
  match s with
  | '-' :: r => (parseUnsigned r).map fun p => (Json.num (-p.1), p.2)
  | _ => (parseUnsigned s).map fun p => (Json.num p.1, p.2)

mutual

/-- One JSON value (recursive descent, fuelled). -/
def parseVal : Nat → List Char → Option (Json × List Char)
  | 0, _ => none
  | fuel + 1, s =>
    match skipWs s with
    | 'n' :: 'u' :: 'l' :: 'l' :: r => some (Json.null, r)
    | 't' :: 'r' :: 'u' :: 'e' :: r => some (Json.bool true, r)
    | 'f' :: 'a' :: 'l' :: 's' :: 'e' :: r => some (Json.bool false, r)
    | '"' :: r => (parseStringRest r).map fun p => (Json.str p.1, p.2)
    | '[' :: r =>
      (match skipWs r with
       | ']' :: r2 => some (Json.arr [], r2)
       | r2 => (parseElems fuel r2).map fun p => (Json.arr p.1, p.2))
    | '{' :: r =>
      (match skipWs r with
       | '}' :: r2 => some (Json.obj [], r2)
       | r2 => (parseMembers fuel r2).map fun p => (Json.obj p.1, p.2))
    | r => parseNumber r

/-- Comma-separated JSON array elements up to the closing bracket. -/
def parseElems : Nat → List Char → Option (List Json × List Char)
  | 0, _ => none
  | fuel + 1, s =>
    (parseVal fuel s).bind fun p =>
      match skipWs p.2 with
      | ',' :: r => (parseElems fuel r).map fun q => (p.1 :: q.1, q.2)
      | ']' :: r => some ([p.1], r)
      | _ => none

/-- Comma-separated JSON object members up to the closing brace. -/
def parseMembers : Nat → List Char → Option (List (List Char × Json) × List Char)
  | 0, _ => none
  | fuel + 1, s =>
    match skipWs s with
    | '"' :: r =>
      (parseStringRest r).bind fun kp =>
        match skipWs kp.2 with
        | ':' :: r2 =>
          (parseVal fuel r2).bind fun vp =>
            match skipWs vp.2 with
            | ',' :: r3 => (parseMembers fuel r3).map fun q => ((kp.1, vp.1) :: q.1, q.2)
            | '}' :: r3 => some ([(kp.1, vp.1)], r3)
            | _ => none
        | _ => none
    | _ => none

end

/-- Model of `JSON.parse`: a complete JSON text (with surrounding
whitespace allowed); `none` where `JSON.parse` would throw. -/
def Json.parse (s : List Char) : Option Json :=
  match parseVal (2 * s.length + 4) s with
  | some p => if skipWs p.2 = [] then some p.1 else none
  | none => none

/-- The backtick character. -/
def bq : Char := Char.ofNat 96

/-- Literal head of the tagged-fence regex of `extractJson`. -/
def taggedOpen : List Char := "```json\n".data

/-- Literal head of the untagged-fence regex of `extractJson`. -/
def plainOpen : List Char := "```\n".data

/-- Literal tail of both capture regexes of `extractJson`. -/
def closeFence : List Char := "\n```".data

/-- Literal head of the replace regex of `fetchSpaceWeather`. -/
def stripOpen : List Char := "```json".data

/-- Plain triple fence, the literal tail of the replace regex. -/
def fenceDelim : List Char := "```".data

/-- Index of the first occurrence of `pat` in a list. -/
def firstIdx (pat : List Char) : List Char → Option Nat
  | [] => if pat.isPrefixOf ([] : List Char) then some 0 else none
  | c :: r => if pat.isPrefixOf (c :: r) then some 0 else (firstIdx pat r).map (· + 1)

/-- Substring test. -/
def containsSub (pat s : List Char) : Bool := (firstIdx pat s).isSome

/-- Leftmost-lazy match of the regex `opener([\s\S]*?)\n```​`, returning
the capture: the text between the first occurrence of `opener` and the
first following occurrence of `closeFence`. -/
def fenceCapture (opener s : List Char) : Option (List Char) :=
  match firstIdx opener s with
  | none => none
  | some p =>
    let rest := s.drop (p + opener.length)
    match firstIdx closeFence rest with
    | none => none
    | some q => some (rest.take q)

/-- The `jsonMatch` expression of `extractJson`: the tagged pattern,
falling back to the untagged pattern (JavaScript `||`). -/
def jsonMatchCapture (text : List Char) : Option (List Char) :=
  match fenceCapture taggedOpen text with
  | some m => some m
  | none => fenceCapture plainOpen text

/-- `extractJson` of `geminiService.ts`: parse the captured fenced
block; `none` both when no block matches and when `JSON.parse` throws
(the `catch` branch). The embedding is a total function: extraction
never raises. -/
def extractJson (text : List Char) : Option Json :=
  match jsonMatchCapture text with
  | some m => Json.parse m
  | none => none

/-- JavaScript `String.trim` whitespace (the characters relevant here;
further Unicode space separators behave identically). -/
def jsWs (c : Char) : Bool :=
  c = ' ' || c = '\t' || c = '\n' || c = '\r' || c = Char.ofNat 11 ||
  c = Char.ofNat 12 || c = Char.ofNat 160 || c = Char.ofNat 8232 ||
  c = Char.ofNat 8233 || c = Char.ofNat 65279

/-- JavaScript `String.trim`. -/
def trimJS (s : List Char) : List Char :=
  ((s.dropWhile jsWs).reverse.dropWhile jsWs).reverse

/-- The `text.replace(/```json[\s\S]*?```​/, '')` step of
`fetchSpaceWeather`: remove the first occurrence of `stripOpen`
together with everything up to (and including) the first following
triple fence; if the pattern does not match, the text is unchanged. -/
def replaceFirstJsonFence (s : List Char) : List Char :=
  match firstIdx stripOpen s with
  | none => s
  | some p =>
    let rest := s.drop (p + stripOpen.length)
    match firstIdx fenceDelim rest with
    | none => s
    | some q => s.take p ++ rest.drop (q + fenceDelim.length)

/-- The `rawText` field computation of `fetchSpaceWeather`. -/
def rawTextOf (text : List Char) : List Char := trimJS (replaceFirstJsonFence text)

/-- Error payload of a failed external model call (message text). -/
abbrev Err := List Char

/-- Caller-owned coordinate pair (degrees; modelled as exact rationals,
the claims never compute with them). -/
structure Coordinates where
  latitude : Rat
  longitude : Rat

/-- A grounding citation: uri + title. -/
structure GroundingSource where
  uri : List Char
  title : List Char

/-- The web reference possibly carried by a grounding chunk. -/
structure WebRef where
  uri : List Char
  title : List Char

/-- One grounding chunk of the model reply (`chunk.web` may be absent). -/
structure GroundingChunk where
  web : Option WebRef

/-- The observable part of a successful model reply: `response.text`
(possibly absent) and
`response.candidates?.[0]?.groundingMetadata?.groundingChunks`
(possibly absent). -/
structure ModelResponse where
  text : Option (List Char)
  groundingChunks : Option (List GroundingChunk)

/-- `SearchResult<WeatherData>` as built by `fetchSpaceWeather`; at
runtime `data` is whatever JSON the extractor produced (or the mock
object), so it is modelled as `Option Json`. -/
structure SearchResult where
  data : Option Json
  rawText : List Char
  sources : List GroundingSource

/-- The `mappedSources` computation: keep only chunks bearing a web
reference, project uri and title. -/
def mapChunks (chunks : List GroundingChunk) : List GroundingSource :=
  ((chunks.map fun ch => ch.web).filterMap id).map fun w => GroundingSource.mk w.uri w.title

/-- `getAI` returns a client iff the credential is present and non-empty
(JavaScript falsiness of the empty string). -/
def apiKeyPresent : Option (List Char) → Bool
  | none => false
  | some k => !k.isEmpty

/-- The live branch of `fetchSpaceWeather`, as a function of the outcome
of the external call: a transport failure is re-raised by the `catch`
block; a successful reply is reshaped into a `SearchResult` whose `data`
is the extraction outcome and whose `rawText` is the reply text with the
first tagged fence replaced by the empty string, trimmed. -/
def fetchSpaceWeatherLive (response : Except Err ModelResponse) : Except Err SearchResult :=
  match response with
  | Except.error e => Except.error e
  | Except.ok r =>
    let text := r.text.getD []
    Except.ok (SearchResult.mk (extractJson text) (rawTextOf text)
      (mapChunks (r.groundingChunks.getD [])))

/-- `MOCK_WEATHER_DATA.summary`. -/
def mockSummary : List Char :=
  "âš ï¸ DEMO MODE: API Key not detected. Displaying simulated storm conditions. \n\nA moderate geomagnetic storm (G2) is in progress due to a Coronal Hole High Speed Stream (CH HSS). High-latitude observers should have excellent visibility.".data

/-- `MOCK_WEATHER_DATA` of `geminiService.ts`, as the JSON-shaped record
the fallback branch returns; the `timestamp` field is the
module-load-time `new Date().toISOString()` string, passed in as a
parameter. -/
def MOCK_WEATHER_DATA (timestamp : List Char) : Json :=
  Json.obj
    [ ("kpIndex".data, Json.num 5.33),
      ("solarWindSpeed".data, Json.num 520),
      ("solarWindDensity".data, Json.num 12.5),
      ("bz".data, Json.num (-6.2)),
      ("probabilityScore".data, Json.num 78),
      ("summary".data, Json.str mockSummary),
      ("visibilityChance".data, Json.str "High".data),
      ("tonightsWindow".data, Json.str "22:00 - 02:00 Local".data),
      ("nearestDetection".data, Json.obj
        [ ("location".data, Json.str "TromsÃ¸, Norway".data),
          ("status".data, Json.str "Visual Sighting Confirmed".data) ]),
      ("solarFlare".data, Json.obj
        [ ("class".data, Json.str "M2.4".data),
          ("time".data, Json.str "14:30 UTC".data),
          ("impact".data, Json.str "Minor Radio Blackout (R1)".data),
          ("region".data, Json.str "AR3664".data),
          ("eta".data, Json.str "Tomorrow 08:00 UTC".data) ]),
      ("forecast".data, Json.arr
        [ Json.obj [("time".data, Json.str "Now".data), ("kp".data, Json.num 5)],
          Json.obj [("time".data, Json.str "+1h".data), ("kp".data, Json.num 6)],
          Json.obj [("time".data, Json.str "+2h".data), ("kp".data, Json.num 5)],
          Json.obj [("time".data, Json.str "+3h".data), ("kp".data, Json.num 4)],
          Json.obj [("time".data, Json.str "+4h".data), ("kp".data, Json.num 3)],
          Json.obj [("time".data, Json.str "+5h".data), ("kp".data, Json.num 3)] ]),
      ("timestamp".data, Json.str timestamp),
      ("locationName".data, Json.str "Simulated Sector (Demo)".data) ]

/-- The single fixed citation of the fallback branch. -/
def mockSources : List GroundingSource :=
  [GroundingSource.mk "https://www.swpc.noaa.gov/".data "NOAA Space Weather (Simulated)".data]

/-- The value the fallback branch of `fetchSpaceWeather` resolves to. -/
def mockSearchResult (timestamp : List Char) : SearchResult :=
  SearchResult.mk (some (MOCK_WEATHER_DATA timestamp)) mockSummary mockSources

/-- The `setTimeout` delay (milliseconds) of the fallback branch of
`fetchSpaceWeather`. -/
def fallbackDelayMs : Nat := 1500

/-- `fetchSpaceWeather`: credential absent (or empty) selects the
always-succeeding mock branch, otherwise the live branch runs against
the external call's outcome. -/
def fetchSpaceWeather (apiKey : Option (List Char)) (timestamp : List Char)
    (coords : Coordinates) (response : Except Err ModelResponse) : Except Err SearchResult :=
  if apiKeyPresent apiKey then fetchSpaceWeatherLive response
  else Except.ok (mockSearchResult timestamp)

/-- `MOCK_PHOTO_ANALYSIS` of `geminiService.ts`. -/
def MOCK_PHOTO_ANALYSIS : Json :=
  Json.obj
    [ ("cloudCover".data, Json.str "Partly Cloudy (Simulated)".data),
      ("darknessRating".data, Json.str "Bortle 4 (Rural Transition)".data),
      ("recommendedSettings".data, Json.obj
        [ ("iso".data, Json.str "1600 - 3200".data),
          ("shutterSpeed".data, Json.str "8s - 15s".data),
          ("aperture".data, Json.str "f/2.8 or lower".data),
          ("focus".data, Json.str "Infinity (Manual)".data) ]),
      ("checklist".data, Json.arr
        [ Json.str "Use a tripod (Mandatory)".data,
          Json.str "Set 2s timer to avoid shake".data,
          Json.str "Shoot in RAW format".data ]),
      ("feedback".data, Json.str "Demo Mode: Great conditions simulated! Look for gaps in the clouds to the North.".data) ]

/-- The `setTimeout` delay (milliseconds) of the fallback branch of
`analyzeSkyPhoto`. -/
def photoFallbackDelayMs : Nat := 2000

/-- `analyzeSkyPhoto`, as a function of the outcome of the external
call: fallback mode resolves to the mock analysis; in live mode a
transport failure is caught and collapsed to `null`, otherwise the reply
text is parsed directly as JSON, falling back to the fenced-block
extractor when the direct parse throws. Total: never raises. -/
def analyzeSkyPhoto (apiKey : Option (List Char))
    (response : Except Err (Option (List Char))) : Option Json :=
  if apiKeyPresent apiKey then
    match response with
    | Except.error _ => none
    | Except.ok t =>
      let text := t.getD []
      match Json.parse text with
      | some v => some v
      | none => extractJson text
  else some MOCK_PHOTO_ANALYSIS

/-- The fixed reply of the mock chat session handle returned by
`createChatSession` in fallback mode. -/
def mockChatReply : List Char :=
  "I am currently in Demo Mode because the API Key is missing. I cannot process live queries, but I can confirm your systems are operational! ðŸš€".data

/-- `sendMessage` of the mock chat session: a pure function of the
message that ignores it and returns the fixed reply. -/
def mockSendMessage (msg : List Char) : List Char := mockChatReply

/-- One send step of the mock chat session against an ambient transcript
state: the mock handle closes over no state, so the transcript is
returned untouched alongside the fixed reply. -/
def mockSessionStep (transcript : List (List Char)) (msg : List Char) :
    List (List Char) × List Char :=
  (transcript, mockSendMessage msg)

/-- Field lookup in a JSON object (first binding wins). -/
def Json.getField (j : Json) (k : List Char) : Option Json :=
  match j with
  | Json.obj fs => (fs.find? fun p => p.1 == k).map fun p => p.2
  | _ => none

/-- Number test. -/
def Json.isNum : Json → Bool
  | Json.num _ => true
  | _ => false

/-- String test. -/
def Json.isStr : Json → Bool
  | Json.str _ => true
  | _ => false

/-- The named field exists and is a number. -/
def numField (j : Json) (k : List Char) : Bool :=
  match j.getField k with
  | some v => v.isNum
  | none => false

/-- The named field exists and is a string. -/
def strField (j : Json) (k : List Char) : Bool :=
  match j.getField k with
  | some v => v.isStr
  | none => false

/-- Modelled from the spec: one entry of the `forecast` series,
`\x7btime, kp\x7d` per the WeatherReport JSON shape of the spec (the
repository's `types.ts` is not among the sources). -/
def specForecastEntry (j : Json) : Bool :=
  strField j "time".data && numField j "kp".data

/-- Modelled from the spec: the WeatherReport JSON shape
(`types.ts` is not among the sources) — the listed fields with their
kinds, `visibilityChance` drawn from the four-value enumeration, and a
6-entry `forecast` array of `\x7btime, kp\x7d` records; `region`/`eta`
of `solarFlare` are optional and extra fields are not constrained. -/
def specWeatherReportShape (j : Json) : Bool :=
  numField j "kpIndex".data && numField j "solarWindSpeed".data &&
  numField j "solarWindDensity".data && numField j "bz".data &&
  numField j "probabilityScore".data &&
  (match j.getField "visibilityChance".data with
   | some (Json.str s) =>
     s == "Low".data || s == "Moderate".data || s == "High".data || s == "Extreme".data
   | _ => false) &&
  strField j "tonightsWindow".data &&
  (match j.getField "nearestDetection".data with
   | some d => strField d "location".data && strField d "status".data
   | none => false) &&
  (match j.getField "solarFlare".data with
   | some f => strField f "class".data && strField f "time".data && strField f "impact".data
   | none => false) &&
  strField j "locationName".data &&
  (match j.getField "forecast".data with
   | some (Json.arr xs) => xs.length == 6 && xs.all specForecastEntry
   | _ => false)

/-- The spec's example reply text:
`"Report:\n```json\n\x7b"kpIndex":5,"forecast":[]\x7d\n```"`. -/
def exampleText : List Char :=
  "Report:\n```json\n\x7b\"kpIndex\":5,\"forecast\":[]\x7d\n```".data

/-- The content of the example's fenced block. -/
def jsonContentEx : List Char := "\x7b\"kpIndex\":5,\"forecast\":[]\x7d".data

/-- The decoded content of the example's fenced block. -/
def exampleJson : Json :=
  Json.obj [("kpIndex".data, Json.num 5), ("forecast".data, Json.arr [])]

/-- A reply whose first tagged fence has unparseable content followed by
a correctly tagged fenced block with valid JSON content. -/
def laterValidText : List Char :=
  "```json\nnope\n``` and ```json\n\x7b\"a\":1\x7d\n```".data

/-- A reply whose only fenced block is untagged (recognized by the
extractor's secondary pattern but not by the rawText replace regex). -/
def untaggedOnlyText : List Char := "Note:\n```\n\x7b\"a\":1\x7d\n```".data

/-- A reply whose prose mentions the tagged opener before two well-formed
tagged fenced blocks with valid JSON content: the regex match starts at
the prose occurrence and captures prose, so parsing fails. -/
def proseOpenerText : List Char :=
  "Tip: ```json\nis a fence.\n```json\n\x7b\x7d\n```\nAlso:\n```json\n[]\n```".data

/-- If `firstIdx` reports an occurrence, the pattern is a prefix of the
corresponding suffix. -/
theorem firstIdx_isPrefix (pat : List Char) :
    ∀ (s : List Char) (i : Nat), firstIdx pat s = some i → pat.isPrefixOf (s.drop i) = true := by
  intro s
  induction s with
  | nil =>
    intro i h
    simp only [firstIdx] at h
    split at h
    · next hp => cases h; exact hp
    · cases h
  | cons c r ih =>
    intro i h
    simp only [firstIdx] at h
    split at h
    · next hp => cases h; exact hp
    · next hp =>
      match hi : firstIdx pat r with
      | none => rw [hi] at h; cases h
      | some j =>
        rw [hi] at h
        simp only [Option.map_some'] at h
        cases h
        exact ih j hi

/-- Searching `pre ++ rest` when no occurrence starts inside `pre`
shifts the search into `rest`. -/
theorem firstIdx_append_shift (pat rest : List Char) :
    ∀ pre : List Char,
      (∀ j, j < pre.length → ¬ pat.isPrefixOf (pre.drop j ++ rest) = true) →
      firstIdx pat (pre ++ rest) = (firstIdx pat rest).map (· + pre.length) := by
  intro pre
  induction pre with
  | nil =>
    intro _
    simp only [List.nil_append, List.length_nil]
    cases firstIdx pat rest <;> simp
  | cons a pre ih =>
    intro h
    have h0 : ¬ pat.isPrefixOf (a :: (pre ++ rest)) = true := by
      have := h 0 (by simp)
      simp only [List.drop_zero, List.cons_append] at this
      exact this
    simp only [List.cons_append, firstIdx, List.append_eq]
    rw [if_neg h0, ih]
    · cases firstIdx pat rest with
      | none => simp
      | some j => simp only [Option.map_some', List.length_cons]; congr 1
    · intro j hj
      have := h (j + 1) (by simpa using Nat.succ_lt_succ hj)
      simpa using this

/-- A nonempty pattern that is a prefix of the text occurs at index 0. -/
theorem firstIdx_zero_of_isPrefixOf (pat s : List Char) (hne : pat ≠ [])
    (h : pat.isPrefixOf s = true) : firstIdx pat s = some 0 := by
  cases s with
  | nil =>
    cases pat with
    | nil => simp at hne
    | cons a tl => simp [List.isPrefixOf] at h
  | cons c r => simp [firstIdx, h]

/-- A pattern starting with a backtick first occurs right after a
backtick-free prefix. -/
theorem firstIdx_bq_pattern (pat pre tail : List Char) (t : List Char) (hpat : pat = bq :: t)
    (hpre : bq ∉ pre) :
    firstIdx pat (pre ++ (pat ++ tail)) = some pre.length := by
  rw [firstIdx_append_shift]
  · rw [firstIdx_zero_of_isPrefixOf pat (pat ++ tail) (by rw [hpat]; simp)
      (by rw [List.isPrefixOf_iff_prefix]; exact List.prefix_append pat tail)]
    simp
  · intro j hj hpref
    rw [List.drop_eq_getElem_cons hj, hpat] at hpref
    simp only [List.cons_append, List.isPrefixOf, Bool.and_eq_true, beq_iff_eq] at hpref
    exact hpre (hpref.1 ▸ List.getElem_mem hj)

/-- The closing fence `"\n```"` first occurs right after a backtick-free
capture: no occurrence can start inside the capture (its second
character would be a backtick of the capture) and none can straddle the
boundary (the characters after the capture start with a newline). -/
theorem firstIdx_closeFence_at (c tail : List Char) (hc : bq ∉ c) :
    firstIdx closeFence (c ++ (closeFence ++ tail)) = some c.length := by
  rw [firstIdx_append_shift]
  · rw [firstIdx_zero_of_isPrefixOf closeFence (closeFence ++ tail) (by simp [closeFence])
      (by rw [List.isPrefixOf_iff_prefix]; exact List.prefix_append closeFence tail)]
    simp
  · intro j hj hpref
    have hcf : closeFence = '\n' :: bq :: bq :: bq :: [] := rfl
    rw [List.drop_eq_getElem_cons hj, hcf] at hpref
    simp only [List.cons_append, List.isPrefixOf, Bool.and_eq_true, beq_iff_eq] at hpref
    obtain ⟨h1, h2⟩ := hpref
    by_cases hlt : j + 1 < c.length
    · rw [List.drop_eq_getElem_cons hlt] at h2
      simp only [List.cons_append, List.isPrefixOf, Bool.and_eq_true, beq_iff_eq] at h2
      exact hc (h2.1 ▸ List.getElem_mem hlt)
    · have hfin : c.drop (j + 1) = [] := List.drop_eq_nil_iff.2 (by omega)
      rw [hfin] at h2
      simp only [List.append_eq, List.nil_append, List.isPrefixOf, Bool.and_eq_true,
        beq_iff_eq] at h2
      exact absurd h2.1 (by decide)

/-- The lazy capture regex on a text of the form
`pre ++ opener ++ c ++ "\n```" ++ tail` (with backtick-free `pre` and
`c`) captures exactly `c`. -/
theorem fenceCapture_block (opener pre c tail : List Char) (t : List Char)
    (hop : opener = bq :: t) (hpre : bq ∉ pre) (hc : bq ∉ c) :
    fenceCapture opener (pre ++ (opener ++ (c ++ (closeFence ++ tail)))) = some c := by
  have h1 : firstIdx opener (pre ++ (opener ++ (c ++ (closeFence ++ tail)))) = some pre.length :=
    firstIdx_bq_pattern opener pre _ t hop hpre
  have h2 : (pre ++ (opener ++ (c ++ (closeFence ++ tail)))).drop (pre.length + opener.length)
      = c ++ (closeFence ++ tail) := by
    rw [List.drop_append, List.drop_left]
  simp only [fenceCapture, h1, h2, firstIdx_closeFence_at c tail hc, List.take_left]

/-- Trimming only removes characters. -/
theorem mem_trimJS (x : Char) (s : List Char) (h : x ∈ trimJS s) : x ∈ s := by
  unfold trimJS at h
  rw [List.mem_reverse] at h
  have h2 := (List.dropWhile_sublist jsWs).subset h
  rw [List.mem_reverse] at h2
  exact (List.dropWhile_sublist jsWs).subset h2

/-- A pattern containing a character absent from the text does not occur
in it. -/
theorem containsSub_false_of_not_mem (pat s : List Char) (x : Char) (hx : x ∈ pat)
    (hs : x ∉ s) : containsSub pat s = false := by
  unfold containsSub
  cases hi : firstIdx pat s with
  | none => rfl
  | some i =>
    exfalso
    have hp := firstIdx_isPrefix pat s i hi
    rw [List.isPrefixOf_iff_prefix] at hp
    exact hs (List.drop_subset i s (hp.subset hx))

/-- On a text whose first tagged opener begins a well-formed block,
`extractJson` parses exactly that block's content. -/
theorem extractJson_tagged_block (pre c tail : List Char) (hpre : bq ∉ pre) (hc : bq ∉ c) :
    extractJson (pre ++ (taggedOpen ++ (c ++ (closeFence ++ tail)))) = Json.parse c := by
  have h := fenceCapture_block taggedOpen pre c tail "``json\n".data rfl hpre hc
  simp only [extractJson, jsonMatchCapture, h]

/-- The replace regex of `fetchSpaceWeather` removes exactly a
well-formed first tagged block. -/
theorem replaceFirstJsonFence_block (pre c post : List Char)
    (hpre : bq ∉ pre) (hc : bq ∉ c) :
    replaceFirstJsonFence (pre ++ (taggedOpen ++ (c ++ (closeFence ++ post)))) = pre ++ post := by
  have hassoc : pre ++ (taggedOpen ++ (c ++ (closeFence ++ post)))
      = pre ++ (stripOpen ++ (('\n' :: (c ++ ['\n'])) ++ (fenceDelim ++ post))) := by
    have h1 : taggedOpen = stripOpen ++ ['\n'] := rfl
    have h2 : closeFence = '\n' :: fenceDelim := rfl
    rw [h1, h2]
    simp [List.append_assoc, List.cons_append, List.singleton_append]
  rw [hassoc]
  have hmidbq : bq ∉ ('\n' :: (c ++ ['\n'])) := by
    intro hm
    rcases List.mem_cons.1 hm with h | h
    · exact absurd h (by decide)
    · rcases List.mem_append.1 h with h' | h'
      · exact hc h'
      · exact absurd (List.mem_singleton.1 h') (by decide)
  have h1 : firstIdx stripOpen
      (pre ++ (stripOpen ++ (('\n' :: (c ++ ['\n'])) ++ (fenceDelim ++ post)))) = some pre.length :=
    firstIdx_bq_pattern stripOpen pre _ "``json".data rfl hpre
  have h2 : (pre ++ (stripOpen ++ (('\n' :: (c ++ ['\n'])) ++ (fenceDelim ++ post)))).drop
      (pre.length + stripOpen.length) = ('\n' :: (c ++ ['\n'])) ++ (fenceDelim ++ post) := by
    rw [List.drop_append, List.drop_left]
  have h3 : firstIdx fenceDelim (('\n' :: (c ++ ['\n'])) ++ (fenceDelim ++ post))
      = some ('\n' :: (c ++ ['\n'])).length :=
    firstIdx_bq_pattern fenceDelim ('\n' :: (c ++ ['\n'])) post "``".data rfl hmidbq
  simp only [replaceFirstJsonFence, h1, h2, h3, List.take_left]
  rw [List.drop_append, List.drop_left]

/-- C1 counterexample: the text `laterValidText` contains a correctly
tagged fenced block with valid JSON content, yet `extractJson` returns
`none`, because the regex matches an earlier tagged fence whose capture
(`"nope"`) is not valid JSON. -/
theorem extractJson_later_valid_block_missed :
    containsSub "```json\n\x7b\"a\":1\x7d\n```".data laterValidText = true ∧
    Json.parse "\x7b\"a\":1\x7d".data = some (Json.obj [("a".data, Json.num 1)]) ∧
    extractJson laterValidText = none :=
  ⟨rfl, rfl, rfl⟩

/-- C1 (amended): on every text whose first occurrence of the tagged
opener begins a well-formed fenced block (backtick-free prose before it,
backtick-free content) with valid JSON content, `extractJson` returns
the block's decoded content. -/
theorem extractJson_first_tagged_valid (pre c post : List Char) (v : Json)
    (hpre : bq ∉ pre) (hc : bq ∉ c) (hv : Json.parse c = some v) :
    extractJson (pre ++ (taggedOpen ++ (c ++ (closeFence ++ post)))) = some v := by
  rw [extractJson_tagged_block pre c post hpre hc, hv]

/-- C1 witness: the spec's example text decodes to
`\x7bkpIndex:5, forecast:[]\x7d`. -/
theorem extractJson_first_tagged_valid_witness :
    extractJson exampleText = some exampleJson :=
  extractJson_first_tagged_valid "Report:\n".data jsonContentEx [] exampleJson
    (by decide) (by decide) rfl

/-- C2: `extractJson` is a total function (the embedding returns
`Option`, never an exception), and it returns `none` exactly when no
fenced block matches either regex or the captured content fails to
parse as JSON. -/
theorem extractJson_total_failure_to_none (text : List Char) :
    extractJson text = none ↔
      (jsonMatchCapture text = none ∨
        ∃ c, jsonMatchCapture text = some c ∧ Json.parse c = none) := by
  unfold extractJson
  cases h : jsonMatchCapture text <;> simp_all

/-- C3: on a text containing a well-formed tagged fenced block followed
by a trailing untagged fenced block, `extractJson` returns the tagged
block's decoded content — the untagged secondary pattern is never
consulted when the tagged pattern matches. -/
theorem extractJson_tagged_precedence (pre c mid d post : List Char) (v w : Json)
    (hpre : bq ∉ pre) (hc : bq ∉ c)
    (hv : Json.parse c = some v) (hw : Json.parse d = some w) :
    extractJson (pre ++ (taggedOpen ++ (c ++ (closeFence ++
      (mid ++ (plainOpen ++ (d ++ (closeFence ++ post)))))))) = some v := by
  rw [extractJson_tagged_block pre c _ hpre hc, hv]

/-- C3 witness: tagged block `1` followed by untagged block `2` yields
the number 1. -/
theorem extractJson_tagged_precedence_witness :
    extractJson ("A ".data ++ (taggedOpen ++ ("1".data ++ (closeFence ++
      (" B ".data ++ (plainOpen ++ ("2".data ++ (closeFence ++ []))))))))
      = some (Json.num 1) :=
  extractJson_tagged_precedence "A ".data "1".data " B ".data "2".data []
    (Json.num 1) (Json.num 2) (by decide) (by decide) rfl rfl

/-- C4 counterexample: on a reply whose only fenced block is untagged,
the extractor recognizes and parses the block, but the rawText replace
regex (which requires the `json` tag) removes nothing, so the
`rawText` returned by `fetchSpaceWeather` still contains the fenced
block as a substring. -/
theorem rawText_untagged_block_not_stripped :
    extractJson untaggedOnlyText = some (Json.obj [("a".data, Json.num 1)]) ∧
    fetchSpaceWeatherLive (Except.ok (ModelResponse.mk (some untaggedOnlyText) none))
      = Except.ok (SearchResult.mk (some (Json.obj [("a".data, Json.num 1)]))
          untaggedOnlyText []) ∧
    containsSub "```\n\x7b\"a\":1\x7d\n```".data untaggedOnlyText = true :=
  ⟨rfl, rfl, rfl⟩

/-- C4 (amended): the `rawText` produced by `fetchSpaceWeather` is the
reply with the first tagged fenced block removed and the result
trimmed; for a backtick-free context this leaves no fence in `rawText`.
Only the tagged pattern is stripped (and only its first occurrence):
untagged blocks recognized by the extractor's secondary pattern remain
in `rawText` (see the counterexample). -/
theorem rawText_strips_first_tagged_block (pre c post : List Char)
    (chunks : Option (List GroundingChunk))
    (hpre : bq ∉ pre) (hc : bq ∉ c) (hpost : bq ∉ post) :
    fetchSpaceWeatherLive (Except.ok (ModelResponse.mk
        (some (pre ++ (taggedOpen ++ (c ++ (closeFence ++ post))))) chunks))
      = Except.ok (SearchResult.mk
          (extractJson (pre ++ (taggedOpen ++ (c ++ (closeFence ++ post)))))
          (trimJS (pre ++ post)) (mapChunks (chunks.getD []))) ∧
    containsSub fenceDelim (trimJS (pre ++ post)) = false := by
  constructor
  · simp only [fetchSpaceWeatherLive, Option.getD_some, rawTextOf,
      replaceFirstJsonFence_block pre c post hpre hc]
  · refine containsSub_false_of_not_mem _ _ bq (by decide) ?_
    intro hm
    rcases List.mem_append.1 (mem_trimJS bq (pre ++ post) hm) with h | h
    exacts [hpre h, hpost h]

/-- C4 witness: the spec's example reply yields `rawText = "Report:"`,
which contains no fence. -/
theorem rawText_strips_first_tagged_block_witness :
    (fetchSpaceWeatherLive (Except.ok (ModelResponse.mk (some exampleText) none))
        = Except.ok (SearchResult.mk (extractJson exampleText) "Report:".data []) ∧
      containsSub fenceDelim "Report:".data = false) :=
  rawText_strips_first_tagged_block "Report:\n".data jsonContentEx [] none
    (by decide) (by decide) (by decide)

/-- C5 counterexample: on the spec's own example reply, the extraction
used by `fetchSpaceWeather` returns a value that does not conform to
the WeatherReport JSON shape (its `forecast` has 0 entries, not 6, and
the other listed fields are missing): no shape validation is
performed. -/
theorem extracted_value_shape_unchecked :
    extractJson exampleText = some exampleJson ∧
    specWeatherReportShape exampleJson = false ∧
    fetchSpaceWeatherLive (Except.ok (ModelResponse.mk (some exampleText) none))
      = Except.ok (SearchResult.mk (some exampleJson) "Report:".data []) :=
  ⟨rfl, rfl, rfl⟩

/-- C5 (amended): every non-null extraction outcome is a value
successfully parsed from the captured fenced block — never an exception
— but it may be an arbitrary JSON value: the code checks no shape. -/
theorem extractJson_some_is_parsed_capture (text : List Char) (v : Json)
    (h : extractJson text = some v) :
    ∃ c, jsonMatchCapture text = some c ∧ Json.parse c = some v := by
  unfold extractJson at h
  cases hm : jsonMatchCapture text with
  | none => rw [hm] at h; cases h
  | some c => rw [hm] at h; exact ⟨c, rfl, h⟩

/-- C5 witness: the example text's outcome is the parse of its
capture. -/
theorem extractJson_some_is_parsed_capture_witness :
    ∃ c, jsonMatchCapture exampleText = some c ∧ Json.parse c = some exampleJson :=
  extractJson_some_is_parsed_capture exampleText exampleJson rfl

/-- C6: with no credential, `fetchSpaceWeather` never fails: for every
coordinates and every would-be external outcome it resolves, after the
nonzero 1500 ms simulated delay, to the same fixed `mockSearchResult`,
whose data is the schema-valid demonstration report with
`locationName = "Simulated Sector (Demo)"` and whose sources are
exactly one citation titled containing "Simulated". -/
theorem fallback_fetch_fixed_report (timestamp : List Char) (coords coords' : Coordinates)
    (resp resp' : Except Err ModelResponse) :
    fetchSpaceWeather none timestamp coords resp = Except.ok (mockSearchResult timestamp) ∧
    fetchSpaceWeather none timestamp coords resp
      = fetchSpaceWeather none timestamp coords' resp' ∧
    (mockSearchResult timestamp).data = some (MOCK_WEATHER_DATA timestamp) ∧
    specWeatherReportShape (MOCK_WEATHER_DATA timestamp) = true ∧
    (MOCK_WEATHER_DATA timestamp).getField "locationName".data
      = some (Json.str "Simulated Sector (Demo)".data) ∧
    (mockSearchResult timestamp).sources.length = 1 ∧
    (mockSearchResult timestamp).sources.all
      (fun src => containsSub "Simulated".data src.title) = true ∧
    0 < fallbackDelayMs :=
  ⟨rfl, rfl, rfl, rfl, rfl, rfl, rfl, by decide⟩

/-- C7: the fallback chat session's send returns the same fixed reply
for every pair of input messages and leaves any prior transcript state
untouched (the mock handle closes over no state). -/
theorem mock_chat_constant_and_stateless (transcript : List (List Char)) (m m' : List Char) :
    mockSessionStep transcript m = (transcript, mockChatReply) ∧
    mockSendMessage m = mockSendMessage m' :=
  ⟨rfl, rfl⟩

/-- C8: in live mode, `analyzeSkyPhoto` collapses an external-call
failure to `none`, and likewise returns `none` (not an exception — the
embedding is total) for every reply that neither parses directly as
JSON nor contains a valid fenced block. -/
theorem analyzeSkyPhoto_failures_to_none (apiKey : Option (List Char)) (e : Err)
    (t : Option (List Char)) (hkey : apiKeyPresent apiKey = true)
    (hdirect : Json.parse (t.getD []) = none) (hfence : extractJson (t.getD []) = none) :
    analyzeSkyPhoto apiKey (Except.error e) = none ∧
    analyzeSkyPhoto apiKey (Except.ok t) = none := by
  constructor
  · simp [analyzeSkyPhoto, hkey]
  · simp [analyzeSkyPhoto, hkey, hdirect, hfence]

/-- C8 witness: a failed call and a prose-only reply both yield
`none`. -/
theorem analyzeSkyPhoto_failures_to_none_witness :
    analyzeSkyPhoto (some "key".data) (Except.error "rate limit".data) = none ∧
    analyzeSkyPhoto (some "key".data) (Except.ok (some "clear skies tonight".data)) = none :=
  analyzeSkyPhoto_failures_to_none (some "key".data) "rate limit".data
    (some "clear skies tonight".data) rfl rfl rfl

/-- C9: in live mode, a transport failure makes `fetchSpaceWeather`
fail as a whole with the same error (the `catch` re-raises it), while a
reply whose structured block fails extraction still succeeds, with
`data = none`. -/
theorem live_fetch_propagates_transport_error (apiKey : Option (List Char))
    (timestamp : List Char) (coords : Coordinates) (e : Err) (r : ModelResponse)
    (hkey : apiKeyPresent apiKey = true)
    (hparse : extractJson (r.text.getD []) = none) :
    fetchSpaceWeather apiKey timestamp coords (Except.error e) = Except.error e ∧
    fetchSpaceWeather apiKey timestamp coords (Except.ok r)
      = Except.ok (SearchResult.mk none (rawTextOf (r.text.getD []))
          (mapChunks (r.groundingChunks.getD []))) := by
  constructor
  · simp [fetchSpaceWeather, hkey, fetchSpaceWeatherLive]
  · simp [fetchSpaceWeather, hkey, fetchSpaceWeatherLive, hparse]

/-- C9 witness: a network error is re-raised; a blockless reply
succeeds with null data. -/
theorem live_fetch_propagates_transport_error_witness :
    fetchSpaceWeather (some "key".data) [] (Coordinates.mk 0 0)
        (Except.error "network error".data) = Except.error "network error".data ∧
    fetchSpaceWeather (some "key".data) [] (Coordinates.mk 0 0)
        (Except.ok (ModelResponse.mk (some "no block here".data) none))
      = Except.ok (SearchResult.mk none (rawTextOf "no block here".data) (mapChunks [])) :=
  live_fetch_propagates_transport_error (some "key".data) [] (Coordinates.mk 0 0)
    "network error".data (ModelResponse.mk (some "no block here".data) none) rfl rfl

/-- C10 counterexample: `proseOpenerText` contains two tagged fenced
blocks, each with valid JSON content, yet `extractJson` returns `none`
(not the first block's decoded content): the prose before the blocks
mentions the tagged opener, the regex match starts there, and its
capture is prose that fails to parse. -/
theorem extractJson_prose_opener_preempts_blocks :
    containsSub "```json\n\x7b\x7d\n```".data proseOpenerText = true ∧
    containsSub "```json\n[]\n```".data proseOpenerText = true ∧
    Json.parse "\x7b\x7d".data = some (Json.obj []) ∧
    Json.parse "[]".data = some (Json.arr []) ∧
    extractJson proseOpenerText = none :=
  ⟨rfl, rfl, rfl, rfl, rfl⟩

/-- C10 (amended): when the first occurrence of the tagged opener
begins a well-formed fenced block with valid JSON content, a text
containing a second tagged block (also valid) decodes to the first
block's content — later blocks are ignored. (If an earlier opener
occurrence, e.g. in prose, yields an invalid capture, extraction
returns null despite later valid blocks; see the counterexample.) -/
theorem extractJson_two_tagged_blocks_first_wins (pre a mid b post : List Char) (v w : Json)
    (hpre : bq ∉ pre) (ha : bq ∉ a)
    (hv : Json.parse a = some v) (hw : Json.parse b = some w) :
    extractJson (pre ++ (taggedOpen ++ (a ++ (closeFence ++
      (mid ++ (taggedOpen ++ (b ++ (closeFence ++ post)))))))) = some v := by
  rw [extractJson_tagged_block pre a _ hpre ha, hv]

/-- C10 witness: two valid tagged blocks `[1]` and `[2]` decode to
`[1]`. -/
theorem extractJson_two_tagged_blocks_first_wins_witness :
    extractJson ("First ".data ++ (taggedOpen ++ ("[1]".data ++ (closeFence ++
      (" then ".data ++ (taggedOpen ++ ("[2]".data ++ (closeFence ++ []))))))))
      = some (Json.arr [Json.num 1]) :=
  extractJson_two_tagged_blocks_first_wins "First ".data "[1]".data " then ".data "[2]".data []
    (Json.arr [Json.num 1]) (Json.arr [Json.num 2]) (by decide) (by decide) rfl rfl
